import Mathlib

/-!
Verification development for `setup_arm_mediapipe.py`, the single source file
of this repository: a MediaPipe ARM setup-automation script.  The script's
operations (system probe, Python version gate, dependency checker, installer
orchestration, CLI dispatch, test-script generation) are shallowly embedded
as pure Lean functions.  External effects (subprocess outcomes, the file
system, interpreter facts) are passed in explicitly as environment values,
and the actions a routine performs are returned as explicit traces.
Exceptions that Python would let escape are modelled with `Except`.
-/

/-- `matchesAt l p` holds when `p` occurs at the head of `l`.
Helper for Python's substring test `p in s`. -/
def matchesAt : List Char → List Char → Bool
  | _, [] => true
  | [], _ :: _ => false
  | c :: cs, d :: ds => c == d && matchesAt cs ds

/-- `containsSeq l p` holds when `p` occurs contiguously inside `l`:
the meaning of Python's `p in s` on strings. -/
def containsSeq : List Char → List Char → Bool
  | [], p => p.isEmpty
  | c :: cs, p => matchesAt (c :: cs) p || containsSeq cs p

theorem matchesAt_iff : ∀ (p l : List Char), matchesAt l p = true ↔ ∃ r, l = p ++ r := by
  intro p
  induction p with
  | nil =>
    intro l
    constructor
    · intro _; exact ⟨l, rfl⟩
    · intro _; cases l <;> rfl
  | cons d ds ih =>
    intro l
    cases l with
    | nil =>
      simp [matchesAt]
    | cons c cs =>
      simp only [matchesAt, Bool.and_eq_true, beq_iff_eq, ih, List.cons_append,
        List.cons.injEq]
      constructor
      · rintro ⟨hcd, r, hr⟩; exact ⟨r, hcd, hr⟩
      · rintro ⟨r, hcd, hr⟩; exact ⟨hcd, r, hr⟩

theorem containsSeq_iff : ∀ (l p : List Char),
    containsSeq l p = true ↔ ∃ pre post, l = pre ++ p ++ post := by
  intro l
  induction l with
  | nil =>
    intro p
    simp only [containsSeq, List.isEmpty_iff]
    constructor
    · intro h; exact ⟨[], [], by simp [h]⟩
    · rintro ⟨pre, post, h⟩
      rcases List.append_eq_nil.mp (List.append_eq_nil.mp h.symm).1 with ⟨_, h2⟩
      exact h2
  | cons c cs ih =>
    intro p
    simp only [containsSeq, Bool.or_eq_true, matchesAt_iff, ih]
    constructor
    · rintro (⟨r, hr⟩ | ⟨pre, post, h⟩)
      · exact ⟨[], r, by simp [hr]⟩
      · exact ⟨c :: pre, post, by simp [h]⟩
    · rintro ⟨pre, post, h⟩
      cases pre with
      | nil => exact Or.inl ⟨post, by simpa using h⟩
      | cons x xs =>
        simp only [List.cons_append, List.cons.injEq] at h
        exact Or.inr ⟨xs, post, h.2⟩

/-- Python version gate, from `check_python_version` (src lines 58-69):
`if version_info.major != 3 or version_info.minor < 9: return False`,
else `return True`. -/
def check_python_version (major minor : Nat) : Bool :=
  if major ≠ 3 ∨ minor < 9 then false else true

/-- Python `str.lower()` on the ASCII strings the script inspects, mapped
over the underlying character list. -/
def lowerStr (s : String) : String :=
  ⟨s.data.map Char.toLower⟩

/-- The ARM indicator substrings, from `_get_system_info` (src line 33). -/
def arm_indicators : List String := ["arm", "aarch64", "armv7l", "armv6l"]

/-- The ARM test of `_get_system_info` (src line 34):
`any(ind in info['machine'].lower() for ind in arm_indicators)`. -/
def arm_detect (machine : String) : Bool :=
  arm_indicators.any (fun ind => containsSeq (lowerStr machine).data ind.data)

/-- Python `str.strip('\x00')` on a character list: drop NUL characters from
both ends. -/
def stripNulList (l : List Char) : List Char :=
  ((l.dropWhile (fun c => c == '\x00')).reverse.dropWhile (fun c => c == '\x00')).reverse

/-- Python `str.strip('\x00')`, as used on the device-tree model file
contents (src line 39). -/
def stripNul (s : String) : String :=
  ⟨stripNulList s.data⟩

/-- The ambient facts `_get_system_info` reads: OS strings from `platform`,
the interpreter path, and the contents of `/proc/device-tree/model` when that
file exists (`none` models a missing file). -/
structure SysEnv where
  system : String
  machine : String
  python_version : String
  python_executable : String
  deviceTreeModel : Option String

/-- The `info` dictionary built by `_get_system_info` (src lines 23-43). -/
structure SystemInfo where
  system : String
  machine : String
  python_version : String
  python_executable : String
  is_arm : Bool
  device : String
  deriving DecidableEq

/-- System probe, from `_get_system_info` (src lines 23-43).  Total: the
probe has no failure path. -/
def _get_system_info (env : SysEnv) : SystemInfo :=
  { system := env.system
    machine := env.machine
    python_version := env.python_version
    python_executable := env.python_executable
    is_arm := arm_detect env.machine
    device :=
      match env.deviceTreeModel with
      | some contents => stripNul contents
      | none => "Unknown ARM Device" }

/-- Claim C3: the Python version gate returns true iff the major version is
exactly 3 and the minor version is at least 9; hence false for 3.8 and
earlier and for any major version other than 3, true for 3.9 and later. -/
theorem check_python_version_iff :
    ∀ major minor : Nat, check_python_version major minor = true ↔ (major = 3 ∧ 9 ≤ minor) := by
  intro major minor
  unfold check_python_version
  split
  · next h =>
    constructor
    · intro hf; cases hf
    · rintro ⟨h3, h9⟩
      rcases h with h | h
      · exact absurd h3 h
      · omega
  · next h =>
    push_neg at h
    exact ⟨fun _ => ⟨h.1, by omega⟩, fun _ => rfl⟩

/-- Claim C4: the probe's `is_arm` flag is true iff the lower-cased machine
string contains one of the substrings in `arm_indicators`; any machine string
whose lower-casing contains "aarch64" yields true, and "x86_64" yields
false. -/
theorem is_arm_iff :
    (∀ env : SysEnv, (_get_system_info env).is_arm = true ↔
      ∃ ind, ind ∈ arm_indicators ∧
        ∃ pre post, (lowerStr env.machine).data = pre ++ ind.data ++ post)
    ∧ (∀ env : SysEnv,
        (∃ pre post, (lowerStr env.machine).data = pre ++ ("aarch64".data) ++ post) →
        (_get_system_info env).is_arm = true)
    ∧ (∀ env : SysEnv, env.machine = "x86_64" → (_get_system_info env).is_arm = false) := by
  refine ⟨?_, ?_, ?_⟩
  · intro env
    simp only [_get_system_info, arm_detect, List.any_eq_true, containsSeq_iff]
  · intro env h
    simp only [_get_system_info, arm_detect, List.any_eq_true, containsSeq_iff]
    exact ⟨"aarch64", by simp [arm_indicators], h⟩
  · intro env h
    simp only [_get_system_info, arm_detect, h]
    decide

/-- Witness for C4: the theorem applied at a concrete probe environment with
machine string "x86_64". -/
theorem is_arm_iff_witness :
    (_get_system_info ⟨"Linux", "x86_64", "3.11.2", "/usr/bin/python3", none⟩).is_arm = false :=
  is_arm_iff.2.2 ⟨"Linux", "x86_64", "3.11.2", "/usr/bin/python3", none⟩ rfl

/-- Outcome of one subprocess probe under `check=True`: zero exit, non-zero
exit (`subprocess.CalledProcessError`), or executable not found
(`FileNotFoundError`). -/
inductive ProbeOutcome
  | ok
  | nonzeroExit
  | missingExe
  deriving DecidableEq

/-- The Python exception classes the dependency checker can encounter. -/
inductive PyExc
  | calledProcessError
  | fileNotFoundError
  deriving DecidableEq

/-- The subprocess probes `check_dependencies` can run. -/
inductive DepAction
  | probePip
  | probePyConfig
  deriving DecidableEq

/-- Environment of `check_dependencies`: the `sys.platform` string and the
outcome each probe would have if run. -/
structure DepEnv where
  platform : String
  pipProbe : ProbeOutcome
  pyConfigProbe : ProbeOutcome

/-- Python `sys.platform.startswith('linux')` (src lines 91, 102). -/
def startsWithLinux (platform : String) : Bool :=
  matchesAt platform.data ("linux".data)

/-- Dependency checker, from `check_dependencies` (src lines 71-106).
The pip3 probe catches both `CalledProcessError` and `FileNotFoundError`
and records "python3-pip"; on Linux the `python3-config` probe catches only
`FileNotFoundError` (recording "python3-dev"), so its `CalledProcessError`
escapes.  Returns either the escaped exception or the boolean result paired
with the final `missing` list, along with the probes actually run. -/
def check_dependencies (env : DepEnv) :
    Except PyExc (Bool × List String) × List DepAction :=
  let missing0 : List String := []
  let missing1 :=
    match env.pipProbe with
    | ProbeOutcome.ok => missing0
    | ProbeOutcome.nonzeroExit => missing0 ++ ["python3-pip"]
    | ProbeOutcome.missingExe => missing0 ++ ["python3-pip"]
  if startsWithLinux env.platform then
    match env.pyConfigProbe with
    | ProbeOutcome.ok =>
        (Except.ok (missing1.isEmpty, missing1),
          [DepAction.probePip, DepAction.probePyConfig])
    | ProbeOutcome.nonzeroExit =>
        (Except.error PyExc.calledProcessError,
          [DepAction.probePip, DepAction.probePyConfig])
    | ProbeOutcome.missingExe =>
        let missing2 := missing1 ++ ["python3-dev"]
        (Except.ok (missing2.isEmpty, missing2),
          [DepAction.probePip, DepAction.probePyConfig])
  else
    (Except.ok (missing1.isEmpty, missing1), [DepAction.probePip])

/-- Counterexample to claim C5: on Linux, when the header tool exits with a
non-zero code, the `CalledProcessError` escapes `check_dependencies` instead
of being converted into the boolean result. -/
theorem check_dependencies_escape_cex :
    (check_dependencies ⟨"linux", ProbeOutcome.ok, ProbeOutcome.nonzeroExit⟩).fst
      = Except.error PyExc.calledProcessError := rfl

/-- Claim C5 (amended): every failure of the package-manager probe and a
missing header-tool executable are caught at the call site and converted
into the boolean result; an exception escapes `check_dependencies` exactly
when, on a Linux platform, the header tool exits with a non-zero code. -/
theorem check_dependencies_boundary :
    ∀ env : DepEnv,
      (∃ e, (check_dependencies env).fst = Except.error e) ↔
        (startsWithLinux env.platform = true
          ∧ env.pyConfigProbe = ProbeOutcome.nonzeroExit) := by
  intro env
  rcases env with ⟨plat, pp, pc⟩
  cases h : startsWithLinux plat <;> cases pp <;> cases pc <;>
    simp [check_dependencies, h]

/-- The queried tools that are absent (executable missing) in a dependency
environment, named as `check_dependencies` records them. -/
def absentTools (env : DepEnv) : List String :=
  (if env.pipProbe = ProbeOutcome.missingExe then ["python3-pip"] else []) ++
  (if startsWithLinux env.platform = true ∧ env.pyConfigProbe = ProbeOutcome.missingExe
    then ["python3-dev"] else [])

/-- Claim C6: when each queried tool either succeeds or its executable is
absent, the checker returns false with `missing` exactly the names of the
absent tools when at least one is absent, and returns true when every
queried probe succeeds. -/
theorem check_dependencies_missing_exact :
    ∀ env : DepEnv,
      env.pipProbe ≠ ProbeOutcome.nonzeroExit →
      env.pyConfigProbe ≠ ProbeOutcome.nonzeroExit →
      (absentTools env ≠ [] →
        (check_dependencies env).fst = Except.ok (false, absentTools env))
      ∧ (absentTools env = [] →
        (check_dependencies env).fst = Except.ok (true, [])) := by
  intro env h1 h2
  rcases env with ⟨plat, pp, pc⟩
  cases h : startsWithLinux plat <;> cases pp <;> cases pc <;>
    simp_all [check_dependencies, absentTools]

/-- Witness for C6: on Linux with pip3 present and the header tool absent,
the checker returns false and lists exactly "python3-dev". -/
theorem check_dependencies_missing_exact_witness :
    (check_dependencies ⟨"linux", ProbeOutcome.ok, ProbeOutcome.missingExe⟩).fst
      = Except.ok (false, ["python3-dev"]) := by
  have h := check_dependencies_missing_exact
    ⟨"linux", ProbeOutcome.ok, ProbeOutcome.missingExe⟩ (by decide) (by decide)
  simpa [absentTools] using h.1 (by decide)

/-- Claim C10: on any platform not starting with "linux" the header probe is
skipped entirely, and the checker returns true exactly when the
package-manager probe succeeds, no matter the header-tool outcome. -/
theorem check_dependencies_nonlinux :
    ∀ env : DepEnv, startsWithLinux env.platform = false →
      (check_dependencies env).snd = [DepAction.probePip]
      ∧ (env.pipProbe = ProbeOutcome.ok →
          (check_dependencies env).fst = Except.ok (true, []))
      ∧ (env.pipProbe ≠ ProbeOutcome.ok →
          (check_dependencies env).fst = Except.ok (false, ["python3-pip"])) := by
  intro env h
  rcases env with ⟨plat, pp, pc⟩
  cases pp <;> simp_all [check_dependencies]

/-- Witness for C10: on "win32" with both executables absent, only the pip
probe runs and the result is false, listing only "python3-pip". -/
theorem check_dependencies_nonlinux_witness :
    (check_dependencies ⟨"win32", ProbeOutcome.missingExe, ProbeOutcome.missingExe⟩).snd
        = [DepAction.probePip]
    ∧ (check_dependencies ⟨"win32", ProbeOutcome.missingExe, ProbeOutcome.missingExe⟩).fst
        = Except.ok (false, ["python3-pip"]) := by
  have h := check_dependencies_nonlinux
    ⟨"win32", ProbeOutcome.missingExe, ProbeOutcome.missingExe⟩ (by decide)
  exact ⟨h.1, h.2.2 (by decide)⟩

/-- Environment of `run_full_setup`: the dependency-check environment plus
the boolean each remaining step's method would return.  `opencvOk` is
carried because the source checks `install_opencv`'s result, though only to
print a warning. -/
structure SetupEnv where
  depEnv : DepEnv
  pythonOk : Bool
  pipUpgradeOk : Bool
  mediapipeInstallOk : Bool
  opencvOk : Bool
  verifyOk : Bool

/-- The steps `run_full_setup` can perform, in source order. -/
inductive Step
  | printInfo
  | checkPython
  | checkDeps
  | upgradePip
  | installMediapipe
  | installOpencv
  | verify
  | createTest
  deriving DecidableEq

/-- Orchestrator, from `run_full_setup` (src lines 340-385): print system
info; return False if the version gate fails; run the dependency check and
continue whatever its boolean result (an escaped exception propagates);
upgrade pip and install MediaPipe, each failure returning False; install
OpenCV, its failure only warned about; verify, failure returning False;
create the test script; return True.  The second component is the trace of
steps performed. -/
def run_full_setup (env : SetupEnv) : Except PyExc Bool × List Step :=
  let t1 := [Step.printInfo, Step.checkPython]
  if !env.pythonOk then (Except.ok false, t1) else
  let t2 := t1 ++ [Step.checkDeps]
  match (check_dependencies env.depEnv).fst with
  | Except.error e => (Except.error e, t2)
  | Except.ok _ =>
    let t3 := t2 ++ [Step.upgradePip]
    if !env.pipUpgradeOk then (Except.ok false, t3) else
    let t4 := t3 ++ [Step.installMediapipe]
    if !env.mediapipeInstallOk then (Except.ok false, t4) else
    let t5 := t4 ++ [Step.installOpencv]
    let t6 := t5 ++ [Step.verify]
    if !env.verifyOk then (Except.ok false, t6) else
    let t7 := t6 ++ [Step.createTest]
    (Except.ok true, t7)

/-- Claim C1: if the version gate fails, the orchestrator returns False
immediately and performs no install action afterward: no pip upgrade, no
MediaPipe install, no OpenCV install, no verification, no test-script
write. -/
theorem run_full_setup_gate_halts :
    ∀ env : SetupEnv, env.pythonOk = false →
      (run_full_setup env).fst = Except.ok false
      ∧ (run_full_setup env).snd = [Step.printInfo, Step.checkPython]
      ∧ Step.upgradePip ∉ (run_full_setup env).snd
      ∧ Step.installMediapipe ∉ (run_full_setup env).snd
      ∧ Step.installOpencv ∉ (run_full_setup env).snd
      ∧ Step.verify ∉ (run_full_setup env).snd
      ∧ Step.createTest ∉ (run_full_setup env).snd := by
  intro env h
  refine ⟨?_, ?_, ?_, ?_, ?_, ?_, ?_⟩ <;> simp [run_full_setup, h]

/-- Witness for C1: the theorem applied at an environment where only the
version gate fails. -/
theorem run_full_setup_gate_halts_witness :
    (run_full_setup
        ⟨⟨"linux", ProbeOutcome.ok, ProbeOutcome.ok⟩, false, true, true, true, true⟩).fst
      = Except.ok false :=
  (run_full_setup_gate_halts
    ⟨⟨"linux", ProbeOutcome.ok, ProbeOutcome.ok⟩, false, true, true, true, true⟩ rfl).1

/-- Claim C2: once the version gate passes and the dependency check returns
a boolean, the orchestrator's result is exactly the conjunction of the pip
upgrade, MediaPipe install and verification results — so a dependency-check
failure or an OpenCV-install failure is never fatal, while a failure of any
of those three steps yields False.  The pip upgrade is attempted whatever
the dependency check returned, verification is still reached when only the
OpenCV install failed, and each fatal failure halts the sequence before the
next step. -/
theorem run_full_setup_policy :
    ∀ (env : SetupEnv) (b : Bool) (l : List String),
      env.pythonOk = true →
      (check_dependencies env.depEnv).fst = Except.ok (b, l) →
      (run_full_setup env).fst
          = Except.ok (env.pipUpgradeOk && (env.mediapipeInstallOk && env.verifyOk))
        ∧ Step.upgradePip ∈ (run_full_setup env).snd
        ∧ (env.pipUpgradeOk = false → Step.installMediapipe ∉ (run_full_setup env).snd)
        ∧ (env.mediapipeInstallOk = false → Step.installOpencv ∉ (run_full_setup env).snd)
        ∧ (env.opencvOk = false → env.pipUpgradeOk = true → env.mediapipeInstallOk = true →
            Step.verify ∈ (run_full_setup env).snd)
        ∧ (env.verifyOk = false → Step.createTest ∉ (run_full_setup env).snd) := by
  intro env b l h1 h2
  rcases env with ⟨de, p, u, m, o, v⟩
  simp only at h1 h2
  subst h1
  cases u <;> cases m <;> cases v <;>
    refine ⟨?_, ?_, ?_, ?_, ?_, ?_⟩ <;> simp [run_full_setup, h2]

/-- Witness for C2: applied where only the OpenCV install fails; the setup
still succeeds and verification is still reached. -/
theorem run_full_setup_policy_witness :
    (run_full_setup
        ⟨⟨"linux", ProbeOutcome.ok, ProbeOutcome.ok⟩, true, true, true, false, true⟩).fst
      = Except.ok true
    ∧ Step.verify ∈ (run_full_setup
        ⟨⟨"linux", ProbeOutcome.ok, ProbeOutcome.ok⟩, true, true, true, false, true⟩).snd := by
  have h := run_full_setup_policy
    ⟨⟨"linux", ProbeOutcome.ok, ProbeOutcome.ok⟩, true, true, true, false, true⟩ true [] rfl rfl
  exact ⟨h.1, h.2.2.2.2.1 rfl rfl rfl⟩

/-- Claim C7: the probe's `device` field is the NUL-stripped contents of the
Linux device-tree model file when that file exists, and "Unknown ARM
Device" otherwise; the probe is a total function of its environment, so it
always succeeds. -/
theorem get_system_info_device :
    ∀ env : SysEnv,
      (env.deviceTreeModel = none →
        (_get_system_info env).device = "Unknown ARM Device")
      ∧ (∀ c, env.deviceTreeModel = some c →
        (_get_system_info env).device = stripNul c) := by
  intro env
  constructor
  · intro h; simp [_get_system_info, h]
  · intro c h; simp [_get_system_info, h]

/-- Witness for C7: the theorem applied at a file system holding a
NUL-terminated model string. -/
theorem get_system_info_device_witness :
    (_get_system_info ⟨"Linux", "aarch64", "3.11.2", "/usr/bin/python3",
        some "Raspberry Pi 4 Model B\x00"⟩).device = "Raspberry Pi 4 Model B" := by
  have h := (get_system_info_device ⟨"Linux", "aarch64", "3.11.2", "/usr/bin/python3",
    some "Raspberry Pi 4 Model B\x00"⟩).2 "Raspberry Pi 4 Model B\x00" rfl
  rw [h]
  decide

/-- The parsed CLI flags of `main` (src lines 390-414).  `verbose` is
accepted but never branched on. -/
structure Args where
  verbose : Bool
  check_only : Bool
  verify_only : Bool
  create_test : Bool

/-- The top-level actions `main` can dispatch to. -/
inductive MainAction
  | printInfo
  | checkPython
  | checkDeps
  | verify
  | createTest
  | fullSetup
  deriving DecidableEq

/-- CLI dispatch, from `main` (src lines 388-435; named `cli_main` here since Lean reserves `main` for entry points): `--check-only` prints the
system info, runs the version gate and the dependency check, and returns 0
(an exception escaping the dependency check propagates); otherwise
`--verify-only` prints and verifies, returning 0; otherwise `--create-test`
writes the test script, returning 0; otherwise the full setup runs and its
boolean becomes exit code 0 or 1. -/
def cli_main (args : Args) (env : SetupEnv) : Except PyExc Nat × List MainAction :=
  if args.check_only then
    (match (check_dependencies env.depEnv).fst with
      | Except.error e => Except.error e
      | Except.ok _ => Except.ok 0,
      [MainAction.printInfo, MainAction.checkPython, MainAction.checkDeps])
  else if args.verify_only then
    (Except.ok 0, [MainAction.printInfo, MainAction.verify])
  else if args.create_test then
    (Except.ok 0, [MainAction.createTest])
  else
    (match (run_full_setup env).fst with
      | Except.error e => Except.error e
      | Except.ok b => Except.ok (if b then 0 else 1),
      [MainAction.fullSetup])

/-- Claim C9: mode precedence is `--check-only` over `--verify-only` over
`--create-test` over the full setup — only the highest-precedence mode
present runs — and each of the three modes exits 0 regardless of the
results of the checks or verification it performs (the dependency check
being assumed to return a boolean rather than raise). -/
theorem main_dispatch_precedence :
    (∀ (args : Args) (env : SetupEnv) (b : Bool) (l : List String),
      args.check_only = true →
      (check_dependencies env.depEnv).fst = Except.ok (b, l) →
      cli_main args env = (Except.ok 0,
        [MainAction.printInfo, MainAction.checkPython, MainAction.checkDeps]))
    ∧ (∀ (args : Args) (env : SetupEnv),
      args.check_only = false → args.verify_only = true →
      cli_main args env = (Except.ok 0, [MainAction.printInfo, MainAction.verify]))
    ∧ (∀ (args : Args) (env : SetupEnv),
      args.check_only = false → args.verify_only = false → args.create_test = true →
      cli_main args env = (Except.ok 0, [MainAction.createTest]))
    ∧ (∀ (args : Args) (env : SetupEnv) (b : Bool),
      args.check_only = false → args.verify_only = false → args.create_test = false →
      (run_full_setup env).fst = Except.ok b →
      cli_main args env = (Except.ok (if b then 0 else 1), [MainAction.fullSetup])) := by
  refine ⟨?_, ?_, ?_, ?_⟩
  · intro args env b l h1 h2
    simp [cli_main, h1, h2]
  · intro args env h1 h2
    simp [cli_main, h1, h2]
  · intro args env h1 h2 h3
    simp [cli_main, h1, h2, h3]
  · intro args env b h1 h2 h3 h4
    simp [cli_main, h1, h2, h3, h4]

/-- Witness for C9: with all three mode flags set and every check failing,
only the check-only path runs and the exit code is still 0. -/
theorem main_dispatch_precedence_witness :
    cli_main ⟨false, true, true, true⟩
        ⟨⟨"linux", ProbeOutcome.missingExe, ProbeOutcome.missingExe⟩,
          false, false, false, false, false⟩
      = (Except.ok 0,
        [MainAction.printInfo, MainAction.checkPython, MainAction.checkDeps]) :=
  main_dispatch_precedence.1 ⟨false, true, true, true⟩
    ⟨⟨"linux", ProbeOutcome.missingExe, ProbeOutcome.missingExe⟩,
      false, false, false, false, false⟩
    false ["python3-pip", "python3-dev"] rfl rfl

/-- The fixed test-script literal `test_code` of `create_test_script`
(src lines 183-331), byte for byte.  Occurrences of backslash-n inside it
are the two-character escape sequences the generated Python file carries. -/
def test_code : String :=
"#!/usr/bin/env python3
\"\"\"Test MediaPipe installation on ARM device\"\"\"

\x69mport sys
\x69mport time

\x64ef test_imports():
    \"\"\"Test basic imports\"\"\"
    print(\"Testing imports...\")
    try:
        \x69mport mediapipe as mp
        print(f\"✓ MediaPipe \x7bmp.__version__\x7d\")
    except ImportError as e:
        print(f\"✗ Failed to import MediaPipe: \x7be\x7d\")
        return False
    
    try:
        \x69mport cv2
        print(f\"✓ OpenCV \x7bcv2.__version__\x7d\")
    except ImportError as e:
        print(f\"✗ Failed to import OpenCV: \x7be\x7d\")
        return False
    
    try:
        \x69mport numpy as np
        print(f\"✓ NumPy \x7bnp.__version__\x7d\")
    except ImportError as e:
        print(f\"✗ Failed to import NumPy: \x7be\x7d\")
        return False
    
    return True


\x64ef test_face_detection():
    \"\"\"Test face detection\"\"\"
    print(\"\\nTesting face detection...\")
    try:
        \x69mport mediapipe as mp
        from mediapipe import solutions
        
        # Create face detection instance
        with solutions.face_detection.FaceDetection() as face_detection:
            print(\"✓ Face detection initialized\")
        
        return True
    except Exception as e:
        print(f\"✗ Face detection test failed: \x7be\x7d\")
        return False


\x64ef test_hands():
    \"\"\"Test hand detection\"\"\"
    print(\"\\nTesting hand detection...\")
    try:
        \x69mport mediapipe as mp
        from mediapipe import solutions
        
        # Create hands instance
        with solutions.hands.Hands() as hands:
            print(\"✓ Hands detection initialized\")
        
        return True
    except Exception as e:
        print(f\"✗ Hands detection test failed: \x7be\x7d\")
        return False


\x64ef test_pose():
    \"\"\"Test pose detection\"\"\"
    print(\"\\nTesting pose estimation...\")
    try:
        \x69mport mediapipe as mp
        from mediapipe import solutions
        
        # Create pose instance
        with solutions.pose.Pose() as pose:
            print(\"✓ Pose detection initialized\")
        
        return True
    except Exception as e:
        print(f\"✗ Pose detection test failed: \x7be\x7d\")
        return False


\x64ef benchmark_inference():
    \"\"\"Simple inference benchmark\"\"\"
    print(\"\\nBenchmarking inference...\")
    try:
        \x69mport cv2
        \x69mport numpy as np
        from mediapipe import solutions
        \x69mport time
        
        # Create test image
        test_image = np.random.randint(0, 255, (480, 640, 3), dtype=np.uint8)
        
        # Test with face detection (fast)
        with solutions.face_detection.FaceDetection() as face_detection:
            start = time.time()
            results = face_detection.process(cv2.cvtColor(test_image, cv2.COLOR_BGR2RGB))
            elapsed = time.time() - start
            print(f\"✓ Face detection inference: \x7belapsed*1000:.2f\x7d ms\")
        
        return True
    except Exception as e:
        print(f\"✗ Benchmark failed: \x7be\x7d\")
        return False


\x64ef main():
    \"\"\"Run all tests\"\"\"
    print(\"=\"*60)
    print(\"MediaPipe ARM Installation Test\")
    print(\"=\"*60)
    
    tests = [
        (\"Import Test\", test_imports),
        (\"Face Detection\", test_face_detection),
        (\"Hand Detection\", test_hands),
        (\"Pose Detection\", test_pose),
        (\"Inference Benchmark\", benchmark_inference),
    ]
    
    results = []
    for test_name, test_func in tests:
        result = test_func()
        results.append((test_name, result))
    
    # Summary
    print(\"\\n\" + \"=\"*60)
    print(\"Test Summary\")
    print(\"=\"*60)
    
    passed = sum(1 for _, result in results if result)
    total = len(results)
    
    for test_name, result in results:
        status = \"✓ PASS\" if result else \"✗ FAIL\"
        print(f\"\x7bstatus\x7d: \x7btest_name\x7d\")
    
    print(f\"\\nTotal: \x7bpassed\x7d/\x7btotal\x7d tests passed\")
    print(\"=\"*60)
    
    return 0 if passed == total else 1


if __name__ == \"__main__\":
    sys.exit(main())
"

/-- File-system actions the script performs. -/
inductive FsAction
  | writeFile (path : String) (content : String)
  | chmod (path : String) (mode : Nat)
  deriving DecidableEq

/-- Test-script generation, from `create_test_script` (src lines 181-338):
open `output_path` for writing, write the fixed `test_code` literal, then
`os.chmod(output_path, 0o755)`.  The probed `SystemInfo` held by the setup
object never enters the output. -/
def create_test_script (info : SystemInfo) (output_path : String) : List FsAction :=
  [FsAction.writeFile output_path test_code, FsAction.chmod output_path 0o755]

/-- Claim C8: for every target path and every probed `SystemInfo`, the
generated file's content is the one fixed literal `test_code` —
byte-identical across all probe results — and the permission bits set on it
are 0o755, whose owner, group and other execute bits are all set. -/
theorem create_test_script_fixed :
    ∀ (info : SystemInfo) (path : String),
      create_test_script info path
        = [FsAction.writeFile path test_code, FsAction.chmod path 0o755]
      ∧ (∀ info2 : SystemInfo,
          create_test_script info path = create_test_script info2 path)
      ∧ Nat.testBit 0o755 0 = true ∧ Nat.testBit 0o755 3 = true
      ∧ Nat.testBit 0o755 6 = true := by
  intro info path
  exact ⟨rfl, fun info2 => rfl, by decide, by decide, by decide⟩
